import Mathlib

/-!
Verification development for `model_zoo/gem_model.py` (GeoGNN / GEM molecular
representation model).  The file embeds the model-definition code shallowly:

* tensors and graphs are abstract types; framework primitives (`paddle.gather`,
  `paddle.concat`, `F.normalize`, the `nn` loss modules and MLPs) are abstract
  functions bundled in structures, since they live outside this repository;
* the loss-wiring of `GeoPredModel.forward` (lines 315-443), the conditional
  head construction of `GeoPredModel.__init__` (lines 178-232), the encoder
  loop of `GeoGNNModel.forward` (lines 107-137) and the residual block
  `GeoGNNBlock` (lines 140-172) are translated statement by statement;
* float arithmetic is modelled over `ℝ`; the int64 cast of angles is modelled
  as truncation toward zero, which is what `paddle.cast(~, 'int64')` performs.
-/

namespace GemModel

/-- The seven pretraining task tags recognised by `GeoPredModel`. -/
inductive Task
  | Cm | Fg | Bar | Dar | Blr | Adc | Cl
deriving DecidableEq, Repr

/-- The fixed order in which `GeoPredModel.forward` tests
`... in self.pretrain_tasks` and inserts entries into the `sub_losses`
dict (lines 336, 344, 352, 370, 398, 411, 423).  Python dicts iterate in
insertion order, so this is also the order of the weighting loop. -/
def taskOrder : List Task := [Task.Cm, Task.Fg, Task.Bar, Task.Dar, Task.Blr, Task.Adc, Task.Cl]

theorem taskOrder_length : taskOrder.length = 7 := rfl

/-- One step of the weighting loop (lines 436-437): the contribution of a
sub-loss `s` weighted by the learned scalar `c`:
`paddle.exp(-c * 2) / 2.0 * s + paddle.log(paddle.exp(c) + 1)`. -/
noncomputable def taskTerm (c s : ℝ) : ℝ :=
  Real.exp (-c * 2) / 2 * s + Real.log (Real.exp c + 1)

/-- The weighting loop of `GeoPredModel.forward` (lines 432-438):
`loss = 0; cnt = 0; for name in sub_losses: loss += exp(-coefs[cnt]*2)/2 *
sub_losses[name] + log(exp(coefs[cnt])+1); cnt += 1`.  Indexing `coefs[cnt]`
out of bounds is a framework error, modelled by `none`. -/
noncomputable def totalLossAux (coefs : List ℝ) : ℝ → ℕ → List ℝ → Option ℝ
  | acc, _, [] => some acc
  | acc, cnt, s :: rest =>
    match coefs[cnt]? with
    | none => none
    | some c => totalLossAux coefs (acc + taskTerm c s) (cnt + 1) rest

theorem totalLossAux_nil (coefs : List ℝ) (acc : ℝ) (cnt : ℕ) :
    totalLossAux coefs acc cnt [] = some acc := rfl

theorem totalLossAux_cons (coefs : List ℝ) (acc : ℝ) (cnt : ℕ) (s : ℝ) (rest : List ℝ) :
    totalLossAux coefs acc cnt (s :: rest) =
      match coefs[cnt]? with
      | none => none
      | some c => totalLossAux coefs (acc + taskTerm c s) (cnt + 1) rest := rfl

/-- Closed form of the weighting loop: when all indices stay in bounds the
loop computes the accumulated sum of weighted per-task terms, the `i`-th
sub-loss being weighted by `coefs[cnt + i]`. -/
theorem totalLossAux_eq_sum (coefs : List ℝ) :
    ∀ (subs : List ℝ) (acc : ℝ) (cnt : ℕ), cnt + subs.length ≤ coefs.length →
      totalLossAux coefs acc cnt subs =
        some (acc + ∑ i ∈ Finset.range subs.length,
          taskTerm (coefs.getD (cnt + i) 0) (subs.getD i 0)) := by
  intro subs
  induction subs with
  | nil => intro acc cnt _; simp [totalLossAux]
  | cons s rest ih =>
    intro acc cnt h
    have hc : cnt < coefs.length := by
      simp only [List.length_cons] at h; omega
    have hget : coefs[cnt]? = some (coefs.getD cnt 0) := by
      rw [List.getElem?_eq_getElem hc]
      exact congrArg some (List.getD_eq_getElem coefs 0 hc).symm
    rw [totalLossAux_cons, hget]
    dsimp only
    have h2 : (cnt + 1) + rest.length ≤ coefs.length := by
      simp only [List.length_cons] at h; omega
    rw [ih (acc + taskTerm (coefs.getD cnt 0) s) (cnt + 1) h2]
    congr 1
    simp only [List.length_cons]
    rw [Finset.sum_range_succ']
    simp only [List.getD_cons_succ, List.getD_cons_zero]
    have hidx : ∀ i : ℕ, cnt + 1 + i = cnt + (i + 1) := by omega
    rw [add_comm cnt 0, Nat.zero_add]
    have : ∑ i ∈ Finset.range rest.length,
        taskTerm (coefs.getD (cnt + 1 + i) 0) (rest.getD i 0) =
        ∑ i ∈ Finset.range rest.length,
        taskTerm (coefs.getD (cnt + (i + 1)) 0) (rest.getD i 0) := by
      refine Finset.sum_congr rfl ?_
      intro i _
      rw [hidx i]
    rw [this]
    ring

/-- Appending a final sub-loss to the loop input adds one weighted term,
indexed by the length of the prefix. -/
theorem totalLossAux_append_single (coefs : List ℝ) (s : ℝ) :
    ∀ (subs : List ℝ) (acc : ℝ) (cnt : ℕ),
      totalLossAux coefs acc cnt (subs ++ [s]) =
        (totalLossAux coefs acc cnt subs).bind (fun x =>
          (coefs[cnt + subs.length]?).map (fun c => x + taskTerm c s)) := by
  intro subs
  induction subs with
  | nil =>
    intro acc cnt
    cases h : coefs[cnt]? <;>
      simp [totalLossAux, h]
  | cons u rest ih =>
    intro acc cnt
    rw [List.cons_append, totalLossAux_cons, totalLossAux_cons]
    cases h : coefs[cnt]? with
    | none => simp
    | some c =>
      dsimp only
      rw [ih (acc + taskTerm c u) (cnt + 1)]
      have : cnt + 1 + rest.length = cnt + (u :: rest).length := by
        simp [List.length_cons]; omega
      rw [this]

/-! The pretraining head `GeoPredModel`

Tensors (and index/label tensors of the feed dictionary) are an abstract type
`T`; graphs are an abstract type `G`.  Framework tensor primitives used by the
loss methods are collected in `PaddleOps`. -/

/-- The framework primitives used by `GeoPredModel`.  `gather` and `concat2` /
`concat3` model `paddle.gather` and `paddle.concat(~, 1)` on two or three
tensors; `normalize` models `paddle.nn.functional.normalize(~, axis=1)`.
`WeightedNTXentLoss_func` models the function of the same name imported from
`weighted_nt_xent` (repository code whose source file is not part of the
model-definition file under analysis); its four arguments are `x1`, `x2`,
`mols`, `rms` as in `_get_Cl_loss` (lines 311-312). -/
structure PaddleOps (T : Type) where
  gather : T → T → T
  concat2 : T → T → T
  concat3 : T → T → T → T
  normalize : T → T
  WeightedNTXentLoss_func : T → T → T → T → ℝ

/-- The `graph_dict` argument of `GeoPredModel.forward`: twelve graphs under
fixed keys (lines 319-333). -/
structure GraphDict (G : Type) where
  atom_bond_graph : G
  bond_angle_graph : G
  dihes_angle_graph : G
  atom_bond_graph_conf_cl_1 : G
  bond_angle_graph_conf_cl_1 : G
  dihes_angle_graph_conf_cl_1 : G
  masked_atom_bond_graph : G
  masked_bond_angle_graph : G
  masked_dihes_angle_graph : G
  masked_atom_bond_graph_conf_cl_1 : G
  masked_bond_angle_graph_conf_cl_1 : G
  masked_dihes_angle_graph_conf_cl_1 : G

/-- The `feed_dict` argument of `GeoPredModel.forward`: the index/label
tensors read by the task branches (lines 336-429). -/
structure FeedDict (T : Type) where
  Cm_node_i : T
  Cm_context_id : T
  Cm_node_i_conf_cl_1 : T
  Cm_context_id_conf_cl_1 : T
  Fg_morgan : T
  Fg_daylight : T
  Fg_maccs : T
  Ba_node_i : T
  Ba_node_j : T
  Ba_node_k : T
  Ba_bond_angle : T
  Ba_node_i_conf_cl_1 : T
  Ba_node_j_conf_cl_1 : T
  Ba_node_k_conf_cl_1 : T
  Ba_bond_angle_conf_cl_1 : T
  Da_node_i : T
  Da_node_j : T
  Da_node_k : T
  Da_node_l : T
  Da_bond_angle : T
  Da_node_i_extra : T
  Da_node_j_extra : T
  Da_node_k_extra : T
  Da_node_l_extra : T
  Da_bond_angle_extra : T
  Da_node_i_conf_cl_1 : T
  Da_node_j_conf_cl_1 : T
  Da_node_k_conf_cl_1 : T
  Da_node_l_conf_cl_1 : T
  Da_bond_angle_conf_cl_1 : T
  Da_node_i_extra_conf_cl_1 : T
  Da_node_j_extra_conf_cl_1 : T
  Da_node_k_extra_conf_cl_1 : T
  Da_node_l_extra_conf_cl_1 : T
  Da_bond_angle_extra_conf_cl_1 : T
  Bl_node_i : T
  Bl_node_j : T
  Bl_bond_length : T
  Bl_node_i_conf_cl_1 : T
  Bl_node_j_conf_cl_1 : T
  Bl_bond_length_conf_cl_1 : T
  Ad_node_i : T
  Ad_node_j : T
  Ad_atom_dist : T
  Ad_node_i_conf_cl_1 : T
  Ad_node_j_conf_cl_1 : T
  Ad_atom_dist_conf_cl_1 : T
  fp_score : T
  rms : T

/-- State of a constructed `GeoPredModel` (lines 178-232): the wrapped encoder,
the length-8 `coefs` parameter, the configured task set (modelled as the
membership test `t in self.pretrain_tasks`), and the per-task heads and loss
modules, kept abstract since MLPs and `nn` losses are framework code.
`Bar_cast` / `Dar_cast` are the tensor-level discretisations
`paddle.cast(angle / np.pi * vocab, 'int64')` of lines 259, 275 and 288
(their elementwise real semantics is `Bar_dist_id` below). -/
structure GeoPredModel (G T : Type) where
  compound_encoder : G → G → G → T × T × T
  coefs : List ℝ
  pretrain_tasks : Task → Bool
  Cm_linear : T → T
  Cm_loss : T → T → ℝ
  Fg_linear : T → T
  Fg_loss : T → T → ℝ
  Bar_mlp_1 : T → T
  Bar_mlp_2 : T → T
  Bar_cast : T → T
  Bar_loss : T → T → ℝ
  Dar_mlp1 : T → T
  Dar_mlp2 : T → T
  Dar_cast : T → T
  Dar_loss : T → T → ℝ
  Dar_loss_extra : T → T → ℝ
  Blr_mlp : T → T
  Blr_loss : T → T → ℝ
  Adc_mlp : T → T
  Adc_loss : T → T → ℝ
  Cl_vocab : ℕ
  Cl_linear : T → T
  Cl_loss : T → T → ℝ

variable {G T : Type}

/-- `_get_Cm_loss` (lines 236-240). -/
def get_Cm_loss (ops : PaddleOps T) (m : GeoPredModel G T)
    (Cm_node_i Cm_context_id node_repr : T) : ℝ :=
  let masked_node_repr := ops.gather node_repr Cm_node_i
  let logits := m.Cm_linear masked_node_repr
  m.Cm_loss logits Cm_context_id

/-- `_get_Fg_loss` (lines 242-246). -/
def get_Fg_loss (ops : PaddleOps T) (m : GeoPredModel G T)
    (fd : FeedDict T) (graph_repr : T) : ℝ :=
  let fg_label := ops.concat3 fd.Fg_morgan fd.Fg_daylight fd.Fg_maccs
  let logits := m.Fg_linear graph_repr
  m.Fg_loss logits fg_label

/-- `_get_Bar_loss` (lines 248-261). -/
def get_Bar_loss (ops : PaddleOps T) (m : GeoPredModel G T)
    (Ba_node_i Ba_node_j Ba_node_k Ba_bond_angle node_repr : T) : ℝ :=
  let node_i_repr := ops.gather node_repr Ba_node_i
  let node_j_repr := ops.gather node_repr Ba_node_j
  let node_k_repr := ops.gather node_repr Ba_node_k
  let node_ij_repr := m.Bar_mlp_1 (ops.concat2 node_i_repr node_j_repr)
  let node_jk_repr := m.Bar_mlp_1 (ops.concat2 node_j_repr node_k_repr)
  let pred := m.Bar_mlp_2 (ops.concat2 node_ij_repr node_jk_repr)
  m.Bar_loss pred (m.Bar_cast Ba_bond_angle)

/-- `_get_Dar_loss` (lines 263-291): the primary `(i,j,k),(j,k,l)` quadruple
loss plus the `extra` `(i,j,k),(k,j,l)` quadruple loss. -/
def get_Dar_loss (ops : PaddleOps T) (m : GeoPredModel G T)
    (Da_node_i Da_node_j Da_node_k Da_node_l Da_bond_angle
     Da_node_i_extra Da_node_j_extra Da_node_k_extra Da_node_l_extra
     Da_bond_angle_extra node_repr : T) : ℝ :=
  let node_i_repr := ops.gather node_repr Da_node_i
  let node_j_repr := ops.gather node_repr Da_node_j
  let node_k_repr := ops.gather node_repr Da_node_k
  let node_l_repr := ops.gather node_repr Da_node_l
  let node_ijk_repr := m.Dar_mlp1 (ops.concat3 node_i_repr node_j_repr node_k_repr)
  let node_jkl_repr := m.Dar_mlp1 (ops.concat3 node_j_repr node_k_repr node_l_repr)
  let pred := m.Dar_mlp2 (ops.concat2 node_ijk_repr node_jkl_repr)
  let loss := m.Dar_loss pred (m.Dar_cast Da_bond_angle)
  let node_i_repr_extra := ops.gather node_repr Da_node_i_extra
  let node_j_repr_extra := ops.gather node_repr Da_node_j_extra
  let node_k_repr_extra := ops.gather node_repr Da_node_k_extra
  let node_l_repr_extra := ops.gather node_repr Da_node_l_extra
  let node_ijk_repr_extra :=
    m.Dar_mlp1 (ops.concat3 node_i_repr_extra node_j_repr_extra node_k_repr_extra)
  let node_kjl_repr_extra :=
    m.Dar_mlp1 (ops.concat3 node_k_repr_extra node_j_repr_extra node_l_repr_extra)
  let pred_extra := m.Dar_mlp2 (ops.concat2 node_ijk_repr_extra node_kjl_repr_extra)
  let loss_extra := m.Dar_loss_extra pred_extra (m.Dar_cast Da_bond_angle_extra)
  loss + loss_extra

/-- `_get_Blr_loss` (lines 293-300). -/
def get_Blr_loss (ops : PaddleOps T) (m : GeoPredModel G T)
    (Bl_node_i Bl_node_j Bl_bond_length node_repr : T) : ℝ :=
  let node_i_repr := ops.gather node_repr Bl_node_i
  let node_j_repr := ops.gather node_repr Bl_node_j
  let pred := m.Blr_mlp (ops.concat2 node_i_repr node_j_repr)
  m.Blr_loss pred Bl_bond_length

/-- `_get_Adc_loss` (lines 302-309). -/
def get_Adc_loss (ops : PaddleOps T) (m : GeoPredModel G T)
    (Ad_node_i Ad_node_j Ad_atom_dist node_repr : T) : ℝ :=
  let node_i_repr := ops.gather node_repr Ad_node_i
  let node_j_repr := ops.gather node_repr Ad_node_j
  let logits := m.Adc_mlp (ops.concat2 node_i_repr node_j_repr)
  m.Adc_loss logits Ad_atom_dist

/-- `_get_Cl_loss` (lines 311-312): delegates to `WeightedNTXentLoss_func`.
Note that neither `Cl_linear` nor `Cl_loss` nor `Cl_vocab` occurs here. -/
def get_Cl_loss (ops : PaddleOps T) (x1 x2 mols rms : T) : ℝ :=
  ops.WeightedNTXentLoss_func x1 x2 mols rms

/-- The four argument triples passed to `self.compound_encoder.forward`
in `GeoPredModel.forward`, in call order (lines 319-333). -/
def encoderCalls (gd : GraphDict G) : List (G × G × G) :=
  [(gd.atom_bond_graph, gd.bond_angle_graph, gd.dihes_angle_graph),
   (gd.atom_bond_graph_conf_cl_1, gd.bond_angle_graph_conf_cl_1,
     gd.dihes_angle_graph_conf_cl_1),
   (gd.masked_atom_bond_graph, gd.masked_bond_angle_graph,
     gd.masked_dihes_angle_graph),
   (gd.masked_atom_bond_graph_conf_cl_1, gd.masked_bond_angle_graph_conf_cl_1,
     gd.masked_dihes_angle_graph_conf_cl_1)]

/-- Encoder output on the canonical graph triple (lines 319-321):
`(node_repr, edge_repr, graph_repr)`. -/
def canonicalReprs (m : GeoPredModel G T) (gd : GraphDict G) : T × T × T :=
  m.compound_encoder gd.atom_bond_graph gd.bond_angle_graph gd.dihes_angle_graph

/-- Encoder output on the second-conformer augmented triple (lines 323-325). -/
def confReprs (m : GeoPredModel G T) (gd : GraphDict G) : T × T × T :=
  m.compound_encoder gd.atom_bond_graph_conf_cl_1 gd.bond_angle_graph_conf_cl_1
    gd.dihes_angle_graph_conf_cl_1

/-- Encoder output on the masked canonical triple (lines 327-329). -/
def maskedReprs (m : GeoPredModel G T) (gd : GraphDict G) : T × T × T :=
  m.compound_encoder gd.masked_atom_bond_graph gd.masked_bond_angle_graph
    gd.masked_dihes_angle_graph

/-- Encoder output on the masked augmented triple (lines 331-333). -/
def maskedConfReprs (m : GeoPredModel G T) (gd : GraphDict G) : T × T × T :=
  m.compound_encoder gd.masked_atom_bond_graph_conf_cl_1
    gd.masked_bond_angle_graph_conf_cl_1 gd.masked_dihes_angle_graph_conf_cl_1

/-- The `Cm` branch (lines 336-342): the `Cm` loss accumulated over the
canonical unmasked, canonical masked, augmented unmasked and augmented masked
node representations. -/
def cmSubLoss (ops : PaddleOps T) (m : GeoPredModel G T)
    (gd : GraphDict G) (fd : FeedDict T) : ℝ :=
  get_Cm_loss ops m fd.Cm_node_i fd.Cm_context_id (canonicalReprs m gd).1
    + get_Cm_loss ops m fd.Cm_node_i fd.Cm_context_id (maskedReprs m gd).1
    + get_Cm_loss ops m fd.Cm_node_i_conf_cl_1 fd.Cm_context_id_conf_cl_1
        (confReprs m gd).1
    + get_Cm_loss ops m fd.Cm_node_i_conf_cl_1 fd.Cm_context_id_conf_cl_1
        (maskedConfReprs m gd).1

/-- The `Fg` branch (lines 344-350): the `Fg` loss over the four graph
representations (the same labels are used for all four). -/
def fgSubLoss (ops : PaddleOps T) (m : GeoPredModel G T)
    (gd : GraphDict G) (fd : FeedDict T) : ℝ :=
  get_Fg_loss ops m fd (canonicalReprs m gd).2.2
    + get_Fg_loss ops m fd (maskedReprs m gd).2.2
    + get_Fg_loss ops m fd (confReprs m gd).2.2
    + get_Fg_loss ops m fd (maskedConfReprs m gd).2.2

/-- The `Bar` branch (lines 352-368). -/
def barSubLoss (ops : PaddleOps T) (m : GeoPredModel G T)
    (gd : GraphDict G) (fd : FeedDict T) : ℝ :=
  get_Bar_loss ops m fd.Ba_node_i fd.Ba_node_j fd.Ba_node_k fd.Ba_bond_angle
      (canonicalReprs m gd).1
    + get_Bar_loss ops m fd.Ba_node_i fd.Ba_node_j fd.Ba_node_k fd.Ba_bond_angle
        (maskedReprs m gd).1
    + get_Bar_loss ops m fd.Ba_node_i_conf_cl_1 fd.Ba_node_j_conf_cl_1
        fd.Ba_node_k_conf_cl_1 fd.Ba_bond_angle_conf_cl_1 (confReprs m gd).1
    + get_Bar_loss ops m fd.Ba_node_i_conf_cl_1 fd.Ba_node_j_conf_cl_1
        fd.Ba_node_k_conf_cl_1 fd.Ba_bond_angle_conf_cl_1 (maskedConfReprs m gd).1

/-- The `Dar` branch (lines 370-396). -/
def darSubLoss (ops : PaddleOps T) (m : GeoPredModel G T)
    (gd : GraphDict G) (fd : FeedDict T) : ℝ :=
  get_Dar_loss ops m fd.Da_node_i fd.Da_node_j fd.Da_node_k fd.Da_node_l
      fd.Da_bond_angle fd.Da_node_i_extra fd.Da_node_j_extra fd.Da_node_k_extra
      fd.Da_node_l_extra fd.Da_bond_angle_extra (canonicalReprs m gd).1
    + get_Dar_loss ops m fd.Da_node_i fd.Da_node_j fd.Da_node_k fd.Da_node_l
        fd.Da_bond_angle fd.Da_node_i_extra fd.Da_node_j_extra fd.Da_node_k_extra
        fd.Da_node_l_extra fd.Da_bond_angle_extra (maskedReprs m gd).1
    + get_Dar_loss ops m fd.Da_node_i_conf_cl_1 fd.Da_node_j_conf_cl_1
        fd.Da_node_k_conf_cl_1 fd.Da_node_l_conf_cl_1 fd.Da_bond_angle_conf_cl_1
        fd.Da_node_i_extra_conf_cl_1 fd.Da_node_j_extra_conf_cl_1
        fd.Da_node_k_extra_conf_cl_1 fd.Da_node_l_extra_conf_cl_1
        fd.Da_bond_angle_extra_conf_cl_1 (confReprs m gd).1
    + get_Dar_loss ops m fd.Da_node_i_conf_cl_1 fd.Da_node_j_conf_cl_1
        fd.Da_node_k_conf_cl_1 fd.Da_node_l_conf_cl_1 fd.Da_bond_angle_conf_cl_1
        fd.Da_node_i_extra_conf_cl_1 fd.Da_node_j_extra_conf_cl_1
        fd.Da_node_k_extra_conf_cl_1 fd.Da_node_l_extra_conf_cl_1
        fd.Da_bond_angle_extra_conf_cl_1 (maskedConfReprs m gd).1

/-- The `Blr` branch (lines 398-408). -/
def blrSubLoss (ops : PaddleOps T) (m : GeoPredModel G T)
    (gd : GraphDict G) (fd : FeedDict T) : ℝ :=
  get_Blr_loss ops m fd.Bl_node_i fd.Bl_node_j fd.Bl_bond_length
      (canonicalReprs m gd).1
    + get_Blr_loss ops m fd.Bl_node_i fd.Bl_node_j fd.Bl_bond_length
        (maskedReprs m gd).1
    + get_Blr_loss ops m fd.Bl_node_i_conf_cl_1 fd.Bl_node_j_conf_cl_1
        fd.Bl_bond_length_conf_cl_1 (confReprs m gd).1
    + get_Blr_loss ops m fd.Bl_node_i_conf_cl_1 fd.Bl_node_j_conf_cl_1
        fd.Bl_bond_length_conf_cl_1 (maskedConfReprs m gd).1

/-- The `Adc` branch (lines 411-421). -/
def adcSubLoss (ops : PaddleOps T) (m : GeoPredModel G T)
    (gd : GraphDict G) (fd : FeedDict T) : ℝ :=
  get_Adc_loss ops m fd.Ad_node_i fd.Ad_node_j fd.Ad_atom_dist
      (canonicalReprs m gd).1
    + get_Adc_loss ops m fd.Ad_node_i fd.Ad_node_j fd.Ad_atom_dist
        (maskedReprs m gd).1
    + get_Adc_loss ops m fd.Ad_node_i_conf_cl_1 fd.Ad_node_j_conf_cl_1
        fd.Ad_atom_dist_conf_cl_1 (confReprs m gd).1
    + get_Adc_loss ops m fd.Ad_node_i_conf_cl_1 fd.Ad_node_j_conf_cl_1
        fd.Ad_atom_dist_conf_cl_1 (maskedConfReprs m gd).1

/-- The `Cl` branch (lines 423-429): the first call pairs the normalised
augmented-unmasked graph representation with the normalised canonical-masked
one; the second call pairs the normalised canonical-unmasked graph
representation with the normalised augmented-masked one. -/
def clSubLoss (ops : PaddleOps T) (m : GeoPredModel G T)
    (gd : GraphDict G) (fd : FeedDict T) : ℝ :=
  get_Cl_loss ops (ops.normalize (confReprs m gd).2.2)
      (ops.normalize (maskedReprs m gd).2.2) fd.fp_score fd.rms
    + get_Cl_loss ops (ops.normalize (canonicalReprs m gd).2.2)
        (ops.normalize (maskedConfReprs m gd).2.2) fd.fp_score fd.rms

/-- The sub-loss each task branch would record. -/
def taskSubLoss (ops : PaddleOps T) (m : GeoPredModel G T)
    (gd : GraphDict G) (fd : FeedDict T) : Task → ℝ
  | Task.Cm => cmSubLoss ops m gd fd
  | Task.Fg => fgSubLoss ops m gd fd
  | Task.Bar => barSubLoss ops m gd fd
  | Task.Dar => darSubLoss ops m gd fd
  | Task.Blr => blrSubLoss ops m gd fd
  | Task.Adc => adcSubLoss ops m gd fd
  | Task.Cl => clSubLoss ops m gd fd

/-- The `sub_losses` ordered dict built by `GeoPredModel.forward`
(lines 335-429): one entry per active task, inserted in the fixed branch
order. -/
def GeoPredModel.sub_losses (ops : PaddleOps T) (m : GeoPredModel G T)
    (gd : GraphDict G) (fd : FeedDict T) : List (Task × ℝ) :=
  (if m.pretrain_tasks Task.Cm then [(Task.Cm, cmSubLoss ops m gd fd)] else [])
    ++ (if m.pretrain_tasks Task.Fg then [(Task.Fg, fgSubLoss ops m gd fd)] else [])
    ++ (if m.pretrain_tasks Task.Bar then [(Task.Bar, barSubLoss ops m gd fd)] else [])
    ++ (if m.pretrain_tasks Task.Dar then [(Task.Dar, darSubLoss ops m gd fd)] else [])
    ++ (if m.pretrain_tasks Task.Blr then [(Task.Blr, blrSubLoss ops m gd fd)] else [])
    ++ (if m.pretrain_tasks Task.Adc then [(Task.Adc, adcSubLoss ops m gd fd)] else [])
    ++ (if m.pretrain_tasks Task.Cl then [(Task.Cl, clSubLoss ops m gd fd)] else [])

/-- `GeoPredModel.forward` (lines 315-443) with `return_subloss=True`
semantics: the weighted total loss, the `sub_losses` dict and `self.coefs`.
The first component is `none` exactly when the weighting loop would index
`coefs` out of bounds. -/
noncomputable def GeoPredModel.forward (ops : PaddleOps T) (m : GeoPredModel G T)
    (gd : GraphDict G) (fd : FeedDict T) :
    Option ℝ × List (Task × ℝ) × List ℝ :=
  (totalLossAux m.coefs 0 0 ((m.sub_losses ops gd fd).map Prod.snd),
    m.sub_losses ops gd fd, m.coefs)

/-- The branch chain agrees with filtering the fixed task order by the
configured task set and pairing each task with its sub-loss. -/
theorem sub_losses_eq_filter (ops : PaddleOps T) (m : GeoPredModel G T)
    (gd : GraphDict G) (fd : FeedDict T) :
    m.sub_losses ops gd fd =
      (taskOrder.filter m.pretrain_tasks).map
        (fun t => (t, taskSubLoss ops m gd fd t)) := by
  cases h1 : m.pretrain_tasks Task.Cm <;>
    cases h2 : m.pretrain_tasks Task.Fg <;>
    cases h3 : m.pretrain_tasks Task.Bar <;>
    cases h4 : m.pretrain_tasks Task.Dar <;>
    cases h5 : m.pretrain_tasks Task.Blr <;>
    cases h6 : m.pretrain_tasks Task.Adc <;>
    cases h7 : m.pretrain_tasks Task.Cl <;>
    simp [GeoPredModel.sub_losses, taskOrder, taskSubLoss, h1, h2, h3, h4, h5, h6, h7]

/-- Looking a key up in an association list obtained by pairing each element
of a deduplicated filtered list with a value finds that key's value. -/
theorem lookup_pair_filter {α : Type} [DecidableEq α] (f : α → ℝ) (p : α → Bool)
    (t : α) : ∀ l : List α, l.Nodup → t ∈ l → p t = true →
      List.lookup t ((l.filter p).map (fun u => (u, f u))) = some (f t) := by
  intro l
  induction l with
  | nil => simp
  | cons a l ih =>
    intro hnd hmem hp
    rcases List.nodup_cons.mp hnd with ⟨-, hnd'⟩
    by_cases hta : t = a
    · subst hta
      simp [List.filter_cons, hp, List.lookup]
    · have hmem' : t ∈ l := by
        rcases List.mem_cons.mp hmem with h | h
        · exact absurd h hta
        · exact h
      rw [List.filter_cons]
      by_cases hpa : p a = true
      · rw [if_pos hpa]
        simp only [List.map_cons, List.lookup]
        have : (t == a) = false := beq_false_of_ne hta
        rw [this]
        exact ih hnd' hmem' hp
      · rw [if_neg hpa]
        exact ih hnd' hmem' hp

theorem taskOrder_nodup : taskOrder.Nodup := by decide

/-- The list of sub-loss values, as a map over the active tasks. -/
theorem sub_losses_values (ops : PaddleOps T) (m : GeoPredModel G T)
    (gd : GraphDict G) (fd : FeedDict T) :
    (m.sub_losses ops gd fd).map Prod.snd =
      (taskOrder.filter m.pretrain_tasks).map (taskSubLoss ops m gd fd) := by
  rw [sub_losses_eq_filter, List.map_map]
  rfl

theorem active_length_le (m : GeoPredModel G T) :
    (taskOrder.filter m.pretrain_tasks).length ≤ 7 := by
  calc (taskOrder.filter m.pretrain_tasks).length
      ≤ taskOrder.length := List.length_filter_le _ _
    _ = 7 := taskOrder_length

/-- C1.  For every set of active pretraining tasks and every forward call of
`GeoPredModel` (with its length-8 `coefs` parameter), the total loss returned
by `forward` is the sum, over the active tasks, of
`exp(-2*coef[i])/2 * sub_loss[i] + log(exp(coef[i]) + 1)` where `coef[i]` is
the learned scalar at the task's index `i` in the active-task enumeration; in
particular, for a single active task with `coef = 0` the combined loss equals
`0.5 * sub_loss + log 2`. -/
theorem c1_total_loss_uncertainty_weighting (ops : PaddleOps T)
    (m : GeoPredModel G T) (gd : GraphDict G) (fd : FeedDict T)
    (h8 : m.coefs.length = 8) :
    (GeoPredModel.forward ops m gd fd).1 =
      some (∑ i ∈ Finset.range (m.sub_losses ops gd fd).length,
        taskTerm (m.coefs.getD i 0)
          (((m.sub_losses ops gd fd).map Prod.snd).getD i 0))
    ∧ ∀ t : Task, taskOrder.filter m.pretrain_tasks = [t] →
        m.coefs.getD 0 0 = 0 →
        (GeoPredModel.forward ops m gd fd).1 =
          some (1 / 2 * taskSubLoss ops m gd fd t + Real.log 2) := by
  have hlen : ((m.sub_losses ops gd fd).map Prod.snd).length ≤ 7 := by
    rw [sub_losses_values]
    rw [List.length_map]
    exact active_length_le m
  have hmain := totalLossAux_eq_sum m.coefs ((m.sub_losses ops gd fd).map Prod.snd)
    0 0 (by omega)
  constructor
  · rw [GeoPredModel.forward]
    dsimp only
    rw [hmain]
    rw [List.length_map]
    congr 1
    rw [zero_add]
    exact Finset.sum_congr rfl (fun i _ => by rw [Nat.zero_add])
  · intro t hft hc0
    rw [GeoPredModel.forward]
    dsimp only
    have hv : (m.sub_losses ops gd fd).map Prod.snd = [taskSubLoss ops m gd fd t] := by
      rw [sub_losses_values, hft]
      rfl
    rw [hv, totalLossAux_cons]
    have hc : m.coefs[0]? = some 0 := by
      have h0 : 0 < m.coefs.length := by omega
      rw [List.getElem?_eq_getElem h0]
      rw [← List.getD_eq_getElem m.coefs 0 h0, hc0]
    rw [hc]
    dsimp only
    rw [totalLossAux_nil]
    congr 1
    rw [taskTerm]
    rw [zero_add]
    norm_num [Real.exp_zero]

/-- C9.  In `GeoPredModel.forward` the coefficient applied to a task's
sub-loss is `coefs[i]` where `i` is the task's position among the active
tasks in the fixed order `Cm, Fg, Bar, Dar, Blr, Adc, Cl`; at most 7 tasks
can be active while `coefs` has length 8, so the loop indexing is always in
bounds and the loss is always defined. -/
theorem c9_coef_indexed_by_active_position (ops : PaddleOps T)
    (m : GeoPredModel G T) (gd : GraphDict G) (fd : FeedDict T)
    (h8 : m.coefs.length = 8) :
    m.sub_losses ops gd fd =
      (taskOrder.filter m.pretrain_tasks).map
        (fun t => (t, taskSubLoss ops m gd fd t))
    ∧ (taskOrder.filter m.pretrain_tasks).length ≤ 7
    ∧ (GeoPredModel.forward ops m gd fd).1.isSome
    ∧ (GeoPredModel.forward ops m gd fd).1 =
        some (∑ i ∈ Finset.range (taskOrder.filter m.pretrain_tasks).length,
          taskTerm (m.coefs.getD i 0)
            (taskSubLoss ops m gd fd
              ((taskOrder.filter m.pretrain_tasks).getD i Task.Cm))) := by
  have hvals := sub_losses_values ops m gd fd
  have hlenf : (taskOrder.filter m.pretrain_tasks).length ≤ 7 := active_length_le m
  have hlen : ((m.sub_losses ops gd fd).map Prod.snd).length ≤ 7 := by
    rw [hvals, List.length_map]; exact hlenf
  have hmain := totalLossAux_eq_sum m.coefs ((m.sub_losses ops gd fd).map Prod.snd)
    0 0 (by omega)
  have hform : (GeoPredModel.forward ops m gd fd).1 =
      some (∑ i ∈ Finset.range (taskOrder.filter m.pretrain_tasks).length,
        taskTerm (m.coefs.getD i 0)
          (taskSubLoss ops m gd fd
            ((taskOrder.filter m.pretrain_tasks).getD i Task.Cm))) := by
    rw [GeoPredModel.forward]
    dsimp only
    rw [hmain, zero_add]
    congr 1
    rw [hvals, List.length_map]
    refine Finset.sum_congr rfl ?_
    intro i hi
    have hi' : i < (taskOrder.filter m.pretrain_tasks).length :=
      Finset.mem_range.mp hi
    rw [Nat.zero_add]
    congr 1
    rw [List.getD_eq_getElem _ 0 (by rw [List.length_map]; exact hi')]
    rw [List.getElem_map]
    rw [List.getD_eq_getElem _ Task.Cm hi']
  exact ⟨sub_losses_eq_filter ops m gd fd, hlenf, by rw [hform]; rfl, hform⟩

/-! Shared concrete instances used by witnesses and counterexamples -/

/-- A concrete instantiation of the framework primitives over `T = ℝ`, with a
contrastive loss that is injective in its first two arguments on small
naturals. -/
noncomputable def demoOps : PaddleOps ℝ where
  gather := fun x _ => x
  concat2 := fun x _ => x
  concat3 := fun x _ _ => x
  normalize := id
  WeightedNTXentLoss_func := fun x1 x2 _ _ => 1000 * x1 + x2

/-- A concrete graph dictionary over `G = ℝ`, giving the four `atom_bond`
variants the distinct tags 1, 2, 3, 4. -/
def demoGd : GraphDict ℝ :=
  ⟨1, 0, 0, 2, 0, 0, 3, 0, 0, 4, 0, 0⟩

/-- A concrete all-zero feed dictionary. -/
def demoFd : FeedDict ℝ :=
  ⟨0, 0, 0, 0, 0, 0, 0, 0, 0, 0, 0, 0, 0, 0, 0, 0, 0, 0, 0, 0, 0, 0, 0, 0, 0,
   0, 0, 0, 0, 0, 0, 0, 0, 0, 0, 0, 0, 0, 0, 0, 0, 0, 0, 0, 0, 0, 0, 0, 0⟩

/-- A concrete `GeoPredModel` whose encoder tags its output with the
`atom_bond` graph argument, with all tasks active, zero coefficients and
trivial heads. -/
noncomputable def demoM : GeoPredModel ℝ ℝ where
  compound_encoder := fun a _ _ => (a, a, a)
  coefs := List.replicate 8 0
  pretrain_tasks := fun _ => true
  Cm_linear := id
  Cm_loss := fun _ _ => 0
  Fg_linear := id
  Fg_loss := fun _ _ => 0
  Bar_mlp_1 := id
  Bar_mlp_2 := id
  Bar_cast := id
  Bar_loss := fun _ _ => 0
  Dar_mlp1 := id
  Dar_mlp2 := id
  Dar_cast := id
  Dar_loss := fun _ _ => 0
  Dar_loss_extra := fun _ _ => 0
  Blr_mlp := id
  Blr_loss := fun _ _ => 0
  Adc_mlp := id
  Adc_loss := fun _ _ => 0
  Cl_vocab := 0
  Cl_linear := id
  Cl_loss := fun _ _ => 0

/-- Variant of `demoM` with only the `Blr` task active. -/
noncomputable def demoMBlr : GeoPredModel ℝ ℝ :=
  { demoM with pretrain_tasks := fun t => t == Task.Blr }

/-- Witness for C1: at a concrete single-task instance with zero coefficient
the hypotheses hold and the total loss is `0.5 * sub_loss + log 2`. -/
theorem c1_witness :
    demoMBlr.coefs.length = 8
    ∧ taskOrder.filter demoMBlr.pretrain_tasks = [Task.Blr]
    ∧ demoMBlr.coefs.getD 0 0 = 0
    ∧ (GeoPredModel.forward demoOps demoMBlr demoGd demoFd).1 =
        some (1 / 2 * taskSubLoss demoOps demoMBlr demoGd demoFd Task.Blr
          + Real.log 2) := by
  refine ⟨rfl, ?_, rfl, ?_⟩
  · rfl
  · exact (c1_total_loss_uncertainty_weighting demoOps demoMBlr demoGd demoFd
      rfl).2 Task.Blr rfl rfl

/-- Witness for C9: at a concrete all-task instance the hypothesis holds and
the weighting loop stays in bounds. -/
theorem c9_witness :
    demoM.coefs.length = 8
    ∧ (GeoPredModel.forward demoOps demoM demoGd demoFd).1.isSome := by
  exact ⟨rfl, (c9_coef_indexed_by_active_position demoOps demoM demoGd demoFd
    rfl).2.2.1⟩

theorem mem_taskOrder (t : Task) : t ∈ taskOrder := by
  cases t <;> decide

/-- A single evaluation of a task's loss method against one representation
triple `r`, reading the canonical feed keys when `conf = false` and the
`_conf_cl_1` feed keys when `conf = true` (the `Fg` labels have no
`_conf_cl_1` variant).  `Cl` has no per-representation evaluation of this
shape. -/
def taskLossOn (ops : PaddleOps T) (m : GeoPredModel G T) (fd : FeedDict T)
    (conf : Bool) (r : T × T × T) : Task → ℝ
  | Task.Cm =>
    get_Cm_loss ops m (if conf then fd.Cm_node_i_conf_cl_1 else fd.Cm_node_i)
      (if conf then fd.Cm_context_id_conf_cl_1 else fd.Cm_context_id) r.1
  | Task.Fg => get_Fg_loss ops m fd r.2.2
  | Task.Bar =>
    get_Bar_loss ops m (if conf then fd.Ba_node_i_conf_cl_1 else fd.Ba_node_i)
      (if conf then fd.Ba_node_j_conf_cl_1 else fd.Ba_node_j)
      (if conf then fd.Ba_node_k_conf_cl_1 else fd.Ba_node_k)
      (if conf then fd.Ba_bond_angle_conf_cl_1 else fd.Ba_bond_angle) r.1
  | Task.Dar =>
    get_Dar_loss ops m (if conf then fd.Da_node_i_conf_cl_1 else fd.Da_node_i)
      (if conf then fd.Da_node_j_conf_cl_1 else fd.Da_node_j)
      (if conf then fd.Da_node_k_conf_cl_1 else fd.Da_node_k)
      (if conf then fd.Da_node_l_conf_cl_1 else fd.Da_node_l)
      (if conf then fd.Da_bond_angle_conf_cl_1 else fd.Da_bond_angle)
      (if conf then fd.Da_node_i_extra_conf_cl_1 else fd.Da_node_i_extra)
      (if conf then fd.Da_node_j_extra_conf_cl_1 else fd.Da_node_j_extra)
      (if conf then fd.Da_node_k_extra_conf_cl_1 else fd.Da_node_k_extra)
      (if conf then fd.Da_node_l_extra_conf_cl_1 else fd.Da_node_l_extra)
      (if conf then fd.Da_bond_angle_extra_conf_cl_1 else fd.Da_bond_angle_extra) r.1
  | Task.Blr =>
    get_Blr_loss ops m (if conf then fd.Bl_node_i_conf_cl_1 else fd.Bl_node_i)
      (if conf then fd.Bl_node_j_conf_cl_1 else fd.Bl_node_j)
      (if conf then fd.Bl_bond_length_conf_cl_1 else fd.Bl_bond_length) r.1
  | Task.Adc =>
    get_Adc_loss ops m (if conf then fd.Ad_node_i_conf_cl_1 else fd.Ad_node_i)
      (if conf then fd.Ad_node_j_conf_cl_1 else fd.Ad_node_j)
      (if conf then fd.Ad_atom_dist_conf_cl_1 else fd.Ad_atom_dist) r.1
  | Task.Cl => 0

/-- C2.  For every active task other than `Cl`, the `sub_losses` entry
returned by `GeoPredModel.forward` is the task's loss evaluated four times —
against the canonical unmasked, canonical masked, augmented unmasked and
augmented masked representations, in that order — and summed; the encoder is
invoked on exactly these four graph triples, one call each, per forward
call. -/
theorem c2_four_evaluations_per_task (ops : PaddleOps T) (m : GeoPredModel G T)
    (gd : GraphDict G) (fd : FeedDict T) (t : Task)
    (ht : m.pretrain_tasks t = true) (hne : t ≠ Task.Cl) :
    List.lookup t (GeoPredModel.forward ops m gd fd).2.1 =
      some (taskSubLoss ops m gd fd t)
    ∧ taskSubLoss ops m gd fd t =
        taskLossOn ops m fd false (canonicalReprs m gd) t
          + taskLossOn ops m fd false (maskedReprs m gd) t
          + taskLossOn ops m fd true (confReprs m gd) t
          + taskLossOn ops m fd true (maskedConfReprs m gd) t
    ∧ (encoderCalls gd).length = 4
    ∧ canonicalReprs m gd =
        m.compound_encoder gd.atom_bond_graph gd.bond_angle_graph
          gd.dihes_angle_graph
    ∧ confReprs m gd =
        m.compound_encoder gd.atom_bond_graph_conf_cl_1
          gd.bond_angle_graph_conf_cl_1 gd.dihes_angle_graph_conf_cl_1
    ∧ maskedReprs m gd =
        m.compound_encoder gd.masked_atom_bond_graph gd.masked_bond_angle_graph
          gd.masked_dihes_angle_graph
    ∧ maskedConfReprs m gd =
        m.compound_encoder gd.masked_atom_bond_graph_conf_cl_1
          gd.masked_bond_angle_graph_conf_cl_1
          gd.masked_dihes_angle_graph_conf_cl_1 := by
  refine ⟨?_, ?_, rfl, rfl, rfl, rfl, rfl⟩
  · show List.lookup t (m.sub_losses ops gd fd) = some (taskSubLoss ops m gd fd t)
    rw [sub_losses_eq_filter]
    exact lookup_pair_filter (taskSubLoss ops m gd fd) m.pretrain_tasks t
      taskOrder taskOrder_nodup (mem_taskOrder t) ht
  · cases t with
    | Cm => simp [taskSubLoss, taskLossOn, cmSubLoss]
    | Fg => simp [taskSubLoss, taskLossOn, fgSubLoss]
    | Bar => simp [taskSubLoss, taskLossOn, barSubLoss]
    | Dar => simp [taskSubLoss, taskLossOn, darSubLoss]
    | Blr => simp [taskSubLoss, taskLossOn, blrSubLoss]
    | Adc => simp [taskSubLoss, taskLossOn, adcSubLoss]
    | Cl => exact absurd rfl hne

/-- Witness for C2 at a concrete instance with all tasks active, for `Cm`. -/
theorem c2_witness :
    demoM.pretrain_tasks Task.Cm = true
    ∧ Task.Cm ≠ Task.Cl
    ∧ List.lookup Task.Cm
        (GeoPredModel.forward demoOps demoM demoGd demoFd).2.1 =
        some (taskSubLoss demoOps demoM demoGd demoFd Task.Cm) := by
  refine ⟨rfl, by decide, ?_⟩
  exact (c2_four_evaluations_per_task demoOps demoM demoGd demoFd Task.Cm rfl
    (by decide)).1

/-- Variant of `demoM` with only the `Cl` task active. -/
noncomputable def demoMCl : GeoPredModel ℝ ℝ :=
  { demoM with pretrain_tasks := fun t => t == Task.Cl }

/-- Variant of `demoGd` whose canonical (unmasked) `atom_bond` graph carries
the tag 100 instead of 1; the augmented graphs and the masked canonical graph
are unchanged. -/
def demoGd2 : GraphDict ℝ :=
  ⟨100, 0, 0, 2, 0, 0, 3, 0, 0, 4, 0, 0⟩

/-- C3, counterexample.  At a concrete instance where the encoder tags the
four variants with 1 (canonical), 2 (augmented), 3 (canonical masked),
4 (augmented masked) and the contrastive loss is `(x1, x2) ↦ 1000*x1 + x2`,
the recorded `Cl` sub-loss is `ntxent 2 3 + ntxent 1 4`, whereas the claim
(both directions over the same pair augmented-unmasked / canonical-masked)
would give `ntxent 2 3 + ntxent 3 2`; the two values differ, so the second
summed call does not reuse the first call's pair with roles swapped. -/
theorem c3_counterexample :
    List.lookup Task.Cl (GeoPredModel.forward demoOps demoMCl demoGd demoFd).2.1
      = some ((1000 * 2 + 3) + (1000 * 1 + 4) : ℝ)
    ∧ ((1000 * 2 + 3) + (1000 * 1 + 4) : ℝ) ≠ (1000 * 2 + 3) + (1000 * 3 + 2) := by
  constructor
  · rfl
  · norm_num

/-- C3, amended.  When the `Cl` task is active, its sub-loss is the sum of
the weighted normalized-temperature contrastive loss over two different pairs
of L2-normalized graph representations: first (augmented-unmasked,
canonical-masked), then (canonical-unmasked, augmented-masked) — both
weighted by the same `fp_score` and `rms` entries. -/
theorem c3_amended_cl_pairs (ops : PaddleOps T) (m : GeoPredModel G T)
    (gd : GraphDict G) (fd : FeedDict T)
    (hcl : m.pretrain_tasks Task.Cl = true) :
    List.lookup Task.Cl (GeoPredModel.forward ops m gd fd).2.1 =
      some (ops.WeightedNTXentLoss_func (ops.normalize (confReprs m gd).2.2)
          (ops.normalize (maskedReprs m gd).2.2) fd.fp_score fd.rms
        + ops.WeightedNTXentLoss_func (ops.normalize (canonicalReprs m gd).2.2)
          (ops.normalize (maskedConfReprs m gd).2.2) fd.fp_score fd.rms) := by
  show List.lookup Task.Cl (m.sub_losses ops gd fd) = _
  rw [sub_losses_eq_filter]
  exact lookup_pair_filter (taskSubLoss ops m gd fd) m.pretrain_tasks Task.Cl
    taskOrder taskOrder_nodup (mem_taskOrder Task.Cl) hcl

/-- Witness for the amended C3 at a concrete instance. -/
theorem c3_amended_witness :
    demoMCl.pretrain_tasks Task.Cl = true
    ∧ List.lookup Task.Cl
        (GeoPredModel.forward demoOps demoMCl demoGd demoFd).2.1 =
        some (demoOps.WeightedNTXentLoss_func
            (demoOps.normalize (confReprs demoMCl demoGd).2.2)
            (demoOps.normalize (maskedReprs demoMCl demoGd).2.2)
            demoFd.fp_score demoFd.rms
          + demoOps.WeightedNTXentLoss_func
            (demoOps.normalize (canonicalReprs demoMCl demoGd).2.2)
            (demoOps.normalize (maskedConfReprs demoMCl demoGd).2.2)
            demoFd.fp_score demoFd.rms) := by
  exact ⟨rfl, c3_amended_cl_pairs demoOps demoMCl demoGd demoFd rfl⟩

/-- C10, counterexample.  Two forward calls that agree on the
augmented-unmasked and canonical-masked graph representations (the "two graph
representations" of the claim), on `fp_score`/`rms` and on every parameter,
but differ on the canonical unmasked graph, produce different `Cl`
sub-losses: the `Cl` loss also depends on the canonical-unmasked and
augmented-masked graph representations. -/
theorem c10_counterexample :
    demoOps.normalize (confReprs demoMCl demoGd).2.2 =
      demoOps.normalize (confReprs demoMCl demoGd2).2.2
    ∧ demoOps.normalize (maskedReprs demoMCl demoGd).2.2 =
      demoOps.normalize (maskedReprs demoMCl demoGd2).2.2
    ∧ List.lookup Task.Cl
        (GeoPredModel.forward demoOps demoMCl demoGd demoFd).2.1 ≠
      List.lookup Task.Cl
        (GeoPredModel.forward demoOps demoMCl demoGd2 demoFd).2.1 := by
  refine ⟨rfl, rfl, ?_⟩
  have h1 : List.lookup Task.Cl
      (GeoPredModel.forward demoOps demoMCl demoGd demoFd).2.1
      = some ((1000 * 2 + 3) + (1000 * 1 + 4) : ℝ) := rfl
  have h2 : List.lookup Task.Cl
      (GeoPredModel.forward demoOps demoMCl demoGd2 demoFd).2.1
      = some ((1000 * 2 + 3) + (1000 * 100 + 4) : ℝ) := rfl
  rw [h1, h2]
  intro h
  have := Option.some.inj h
  norm_num at this

/-- C10, amended.  The `Cl` head parameters built at construction are dead
in the forward pass: for any two parameter states differing only in
`Cl_linear`, `Cl_loss` or `Cl_vocab`, the entire output of
`GeoPredModel.forward` (total loss, sub-losses and coefficients) is
identical. -/
theorem c10_amended_cl_head_unused (ops : PaddleOps T) (m : GeoPredModel G T)
    (gd : GraphDict G) (fd : FeedDict T) (f : T → T) (L : T → T → ℝ) (v : ℕ) :
    GeoPredModel.forward ops
        { m with Cl_linear := f, Cl_loss := L, Cl_vocab := v } gd fd =
      GeoPredModel.forward ops m gd fd := rfl

/-- Removing one task tag from the configured `pretrain_tasks` set. -/
def GeoPredModel.removeTask (m : GeoPredModel G T) (t : Task) :
    GeoPredModel G T :=
  { m with pretrain_tasks := fun u => if u = t then false else m.pretrain_tasks u }

/-- Learned coefficients `[0, 1, 0, 0, 0, 0, 0, 0]`: position 0 and position 1
carry different scalars. -/
def demoCoefs : List ℝ := [0, 1, 0, 0, 0, 0, 0, 0]

/-- Variant of `demoM` with tasks `Cm` and `Fg` active and coefficients
`demoCoefs`. -/
noncomputable def demoMCmFg : GeoPredModel ℝ ℝ :=
  { demoM with
      pretrain_tasks := fun t => t == Task.Cm || t == Task.Fg
      coefs := demoCoefs }

/-- C5, counterexample.  With tasks `{Cm, Fg}` active, coefficients
`[0, 1, ...]` and all sub-losses zero, the total loss is
`log 2 + log(exp 1 + 1)` (`Cm` weighted by `coefs[0] = 0`, `Fg` by
`coefs[1] = 1`).  Removing `Cm` leaves total `log 2` (`Fg` is re-weighted by
`coefs[0] = 0`), while the claim predicts the total minus `Cm`'s weighted
term, i.e. `log(exp 1 + 1)`.  The two differ, so the remaining task's
weighted term is not unchanged. -/
theorem c5_counterexample :
    (GeoPredModel.forward demoOps (demoMCmFg.removeTask Task.Cm)
        demoGd demoFd).1 = some (Real.log 2)
    ∧ (GeoPredModel.forward demoOps demoMCmFg demoGd demoFd).1 =
        some (Real.log 2 + Real.log (Real.exp 1 + 1))
    ∧ Real.log 2 ≠
        (Real.log 2 + Real.log (Real.exp 1 + 1)) - Real.log 2 := by
  have h1 : (GeoPredModel.forward demoOps (demoMCmFg.removeTask Task.Cm)
      demoGd demoFd).1 = some (0 + taskTerm 0 (0 + 0 + 0 + 0)) := rfl
  have h2 : (GeoPredModel.forward demoOps demoMCmFg demoGd demoFd).1 =
      some (0 + taskTerm 0 (0 + 0 + 0 + 0) + taskTerm 1 (0 + 0 + 0 + 0)) := rfl
  refine ⟨?_, ?_, ?_⟩
  · rw [h1]
    congr 1
    norm_num [taskTerm, Real.exp_zero]
  · rw [h2]
    congr 1
    norm_num [taskTerm, Real.exp_zero]
  · intro h
    have h2lt : (2 : ℝ) < Real.exp 1 + 1 := by
      have h' := Real.add_one_le_exp 1
      linarith
    have hlt : Real.log 2 < Real.log (Real.exp 1 + 1) :=
      Real.log_lt_log (by norm_num) h2lt
    linarith

/-- C5, amended.  For every removed task, removal deletes exactly that task's
`sub_losses` entry (all remaining entries, keys and raw sub-loss values, are
unchanged); the coefficients applied to the tasks after the removed one
re-index by their new position among the active tasks, and when the removed
task is the last active one in the fixed order `Cm, Fg, Bar, Dar, Blr, Adc,
Cl`, the total loss changes by exactly that task's weighted term and every
other task's weighted term is unchanged. -/
theorem c5_amended_remove_task (ops : PaddleOps T) (m : GeoPredModel G T)
    (gd : GraphDict G) (fd : FeedDict T) (t : Task)
    (h8 : m.coefs.length = 8) :
    (m.removeTask t).sub_losses ops gd fd =
      (m.sub_losses ops gd fd).filter (fun pr => !(pr.1 == t))
    ∧ (taskOrder.filter m.pretrain_tasks =
        taskOrder.filter (m.removeTask t).pretrain_tasks ++ [t] →
        ∃ x, (GeoPredModel.forward ops (m.removeTask t) gd fd).1 = some x
          ∧ (GeoPredModel.forward ops m gd fd).1 =
              some (x + taskTerm
                (m.coefs.getD
                  (taskOrder.filter (m.removeTask t).pretrain_tasks).length 0)
                (taskSubLoss ops m gd fd t))) := by
  have htsl : taskSubLoss ops (m.removeTask t) gd fd = taskSubLoss ops m gd fd :=
    rfl
  constructor
  · rw [sub_losses_eq_filter ops (m.removeTask t) gd fd,
      sub_losses_eq_filter ops m gd fd]
    rw [List.filter_map]
    rw [List.filter_filter]
    rw [htsl]
    congr 1
    refine List.filter_congr ?_
    intro a _
    by_cases ha : a = t
    · subst ha
      simp [GeoPredModel.removeTask]
    · simp [GeoPredModel.removeTask, ha]
  · intro hsplit
    have hvals := sub_losses_values ops m gd fd
    have hvals' := sub_losses_values ops (m.removeTask t) gd fd
    have hsplit' : (m.sub_losses ops gd fd).map Prod.snd =
        ((m.removeTask t).sub_losses ops gd fd).map Prod.snd
          ++ [taskSubLoss ops m gd fd t] := by
      rw [hvals, hvals', htsl, hsplit, List.map_append]
      rfl
    have hlenf : (taskOrder.filter m.pretrain_tasks).length ≤ 7 :=
      active_length_le m
    have hlen1 : (taskOrder.filter (m.removeTask t).pretrain_tasks).length + 1 =
        (taskOrder.filter m.pretrain_tasks).length := by
      rw [hsplit, List.length_append]
      rfl
    have hvlen : (((m.removeTask t).sub_losses ops gd fd).map Prod.snd).length =
        (taskOrder.filter (m.removeTask t).pretrain_tasks).length := by
      rw [hvals', List.length_map]
    have hn'lt : (taskOrder.filter (m.removeTask t).pretrain_tasks).length <
        m.coefs.length := by omega
    obtain ⟨x, hx⟩ : ∃ x, totalLossAux m.coefs 0 0
        (((m.removeTask t).sub_losses ops gd fd).map Prod.snd) = some x :=
      ⟨_, totalLossAux_eq_sum m.coefs
        (((m.removeTask t).sub_losses ops gd fd).map Prod.snd) 0 0 (by omega)⟩
    refine ⟨x, ?_, ?_⟩
    · show totalLossAux m.coefs 0 0
        (((m.removeTask t).sub_losses ops gd fd).map Prod.snd) = _
      exact hx
    · show totalLossAux m.coefs 0 0 ((m.sub_losses ops gd fd).map Prod.snd) = _
      rw [hsplit', totalLossAux_append_single, hx]
      rw [Option.some_bind]
      rw [Nat.zero_add, hvlen, List.getElem?_eq_getElem hn'lt,
        ← List.getD_eq_getElem m.coefs 0 hn'lt]
      rfl

/-- Witness for the amended C5: with tasks `{Cm, Fg}` active, removing `Fg`
(the last active task) filters out exactly the `Fg` entry, and the total loss
decomposes as the remaining total plus the removed task's weighted term. -/
theorem c5_amended_witness :
    demoMCmFg.coefs.length = 8
    ∧ taskOrder.filter demoMCmFg.pretrain_tasks =
        taskOrder.filter (demoMCmFg.removeTask Task.Fg).pretrain_tasks
          ++ [Task.Fg]
    ∧ (demoMCmFg.removeTask Task.Fg).sub_losses demoOps demoGd demoFd =
        (demoMCmFg.sub_losses demoOps demoGd demoFd).filter
          (fun pr => !(pr.1 == Task.Fg))
    ∧ ∃ x, (GeoPredModel.forward demoOps (demoMCmFg.removeTask Task.Fg)
            demoGd demoFd).1 = some x
        ∧ (GeoPredModel.forward demoOps demoMCmFg demoGd demoFd).1 =
            some (x + taskTerm
              (demoMCmFg.coefs.getD
                (taskOrder.filter
                  (demoMCmFg.removeTask Task.Fg).pretrain_tasks).length 0)
              (taskSubLoss demoOps demoMCmFg demoGd demoFd Task.Fg)) := by
  refine ⟨rfl, rfl, ?_, ?_⟩
  · exact (c5_amended_remove_task demoOps demoMCmFg demoGd demoFd Task.Fg
      rfl).1
  · exact (c5_amended_remove_task demoOps demoMCmFg demoGd demoFd Task.Fg
      rfl).2 rfl

/-! Construction of `GeoPredModel` (`__init__`, lines 178-232)

The `model_config` dict is modelled as a record of optional fields; reading a
missing key (`model_config['K']` raising `KeyError`) is modelled by the
`Option` monad. -/

/-- The `model_config` keys read by `GeoPredModel.__init__`.  `None` models
an absent key.  The value types are irrelevant to the control flow; the
activation name is modelled as a number. -/
structure ModelConfig where
  hidden_size : Option ℕ
  dropout_rate : Option ℝ
  act : Option ℕ
  pretrain_tasks : Option (List Task)
  Cm_vocab : Option ℕ
  Fg_size : Option ℕ
  Bar_vocab : Option ℕ
  Dar_vocab : Option ℕ
  Blr_vocab : Option ℕ
  Adc_vocab : Option ℕ
  Cl_vocab : Option ℕ

/-- The result of a successful construction: the configured task list, plus
for each conditionally-built head its vocabulary field (`some` exactly when
the head was built).  The `Fg` head is built unconditionally (lines 200-202),
so its size field is not optional. -/
structure GeoPredInitState where
  pretrain_tasks : List Task
  Cm_vocab : Option ℕ
  Fg_size : ℕ
  Bar_vocab : Option ℕ
  Dar_vocab : Option ℕ
  Blr_vocab : Option ℕ
  Adc_vocab : Option ℕ
  Cl_vocab : Option ℕ
deriving DecidableEq

/-- A conditionally-required key: `if tag in pretrain_tasks:` followed by a
`model_config['K']` read.  When the condition is false the key is not read at
all (and the head is not built). -/
def readIf (cond : Bool) (v : Option ℕ) : Option (Option ℕ) :=
  if cond then v.map some else some none

/-- Shallow embedding of `GeoPredModel.__init__` (lines 178-232): the
unconditional reads of `hidden_size`, `dropout_rate`, `act`,
`pretrain_tasks` (lines 182-185), the conditional `Cm` block (195-199), the
unconditional `Fg` block reading `Fg_size` (200-202), and the conditional
`Bar`, `Dar`, `Blr`, `Adc`, `Cl` blocks (203-232), in source order. -/
def geoPredInit (cfg : ModelConfig) : Option GeoPredInitState := do
  let _hidden ← cfg.hidden_size
  let _dropout ← cfg.dropout_rate
  let _act ← cfg.act
  let tasks ← cfg.pretrain_tasks
  let cm ← readIf (decide (Task.Cm ∈ tasks)) cfg.Cm_vocab
  let fg ← cfg.Fg_size
  let bar ← readIf (decide (Task.Bar ∈ tasks)) cfg.Bar_vocab
  let dar ← readIf (decide (Task.Dar ∈ tasks)) cfg.Dar_vocab
  let blr ← readIf (decide (Task.Blr ∈ tasks)) cfg.Blr_vocab
  let adc ← readIf (decide (Task.Adc ∈ tasks)) cfg.Adc_vocab
  let cl ← readIf (decide (Task.Cl ∈ tasks)) cfg.Cl_vocab
  pure ⟨tasks, cm, fg, bar, dar, blr, adc, cl⟩

/-- A configuration with every generic field present, tasks `{Cm}` (so `Fg`
inactive), the `Cm` vocabulary present, and `Fg_size` absent. -/
def demoCfgNoFg : ModelConfig :=
  ⟨some 128, some 0, some 0, some [Task.Cm], some 10, none, none, none, none,
    none, none⟩

/-- C4, counterexample.  With `Fg` not in `pretrain_tasks` and `Fg_size`
absent from the configuration, construction fails (`KeyError` on
`model_config['Fg_size']`), because the `Fg` head is built unconditionally;
the claim that construction succeeds whenever the size fields of inactive
tasks are absent is false for `Fg`. -/
theorem c4_counterexample :
    demoCfgNoFg.pretrain_tasks = some [Task.Cm]
    ∧ demoCfgNoFg.Fg_size = none
    ∧ geoPredInit demoCfgNoFg = none := by
  exact ⟨rfl, rfl, rfl⟩

/-- `readIf` succeeds when the key is present if required, and records
whether the head was built. -/
theorem readIf_spec (b : Bool) (v : Option ℕ) (h : b = true → v.isSome) :
    ∃ o, readIf b v = some o ∧ o.isSome = b := by
  cases b with
  | false => exact ⟨none, rfl, rfl⟩
  | true =>
    obtain ⟨x, hx⟩ := Option.isSome_iff_exists.mp (h rfl)
    exact ⟨some x, by rw [readIf, if_pos rfl, hx]; rfl, rfl⟩

/-- C4, amended.  For every tag in `{Cm, Bar, Dar, Blr, Adc, Cl}`,
`GeoPredModel.__init__` constructs that task's head (and reads its
vocabulary field) if and only if the tag is in `pretrain_tasks`; the `Fg`
head, however, is constructed unconditionally and `Fg_size` is always read.
Consequently construction succeeds whenever the generic fields, `Fg_size`,
and the vocabulary fields of the *active* tasks among the six are present —
in particular the vocabulary fields of inactive tasks other than `Fg` may be
absent. -/
theorem c4_amended_conditional_heads (cfg : ModelConfig) (tasks : List Task)
    (hp : cfg.pretrain_tasks = some tasks)
    (hh : cfg.hidden_size.isSome) (hd : cfg.dropout_rate.isSome)
    (ha : cfg.act.isSome) (hfg : cfg.Fg_size.isSome)
    (hcm : Task.Cm ∈ tasks → cfg.Cm_vocab.isSome)
    (hbar : Task.Bar ∈ tasks → cfg.Bar_vocab.isSome)
    (hdar : Task.Dar ∈ tasks → cfg.Dar_vocab.isSome)
    (hblr : Task.Blr ∈ tasks → cfg.Blr_vocab.isSome)
    (hadc : Task.Adc ∈ tasks → cfg.Adc_vocab.isSome)
    (hcl : Task.Cl ∈ tasks → cfg.Cl_vocab.isSome) :
    ∃ st, geoPredInit cfg = some st
      ∧ st.pretrain_tasks = tasks
      ∧ st.Cm_vocab.isSome = decide (Task.Cm ∈ tasks)
      ∧ st.Bar_vocab.isSome = decide (Task.Bar ∈ tasks)
      ∧ st.Dar_vocab.isSome = decide (Task.Dar ∈ tasks)
      ∧ st.Blr_vocab.isSome = decide (Task.Blr ∈ tasks)
      ∧ st.Adc_vocab.isSome = decide (Task.Adc ∈ tasks)
      ∧ st.Cl_vocab.isSome = decide (Task.Cl ∈ tasks) := by
  obtain ⟨hv, hhv⟩ := Option.isSome_iff_exists.mp hh
  obtain ⟨dv, hdv⟩ := Option.isSome_iff_exists.mp hd
  obtain ⟨av, hav⟩ := Option.isSome_iff_exists.mp ha
  obtain ⟨fgv, hfgv⟩ := Option.isSome_iff_exists.mp hfg
  obtain ⟨ocm, hocm, hbcm⟩ := readIf_spec (decide (Task.Cm ∈ tasks))
    cfg.Cm_vocab (fun hb => hcm (of_decide_eq_true hb))
  obtain ⟨obar, hobar, hbbar⟩ := readIf_spec (decide (Task.Bar ∈ tasks))
    cfg.Bar_vocab (fun hb => hbar (of_decide_eq_true hb))
  obtain ⟨odar, hodar, hbdar⟩ := readIf_spec (decide (Task.Dar ∈ tasks))
    cfg.Dar_vocab (fun hb => hdar (of_decide_eq_true hb))
  obtain ⟨oblr, hoblr, hbblr⟩ := readIf_spec (decide (Task.Blr ∈ tasks))
    cfg.Blr_vocab (fun hb => hblr (of_decide_eq_true hb))
  obtain ⟨oadc, hoadc, hbadc⟩ := readIf_spec (decide (Task.Adc ∈ tasks))
    cfg.Adc_vocab (fun hb => hadc (of_decide_eq_true hb))
  obtain ⟨ocl, hocl, hbcl⟩ := readIf_spec (decide (Task.Cl ∈ tasks))
    cfg.Cl_vocab (fun hb => hcl (of_decide_eq_true hb))
  refine ⟨⟨tasks, ocm, fgv, obar, odar, oblr, oadc, ocl⟩, ?_, rfl, hbcm, hbbar,
    hbdar, hbblr, hbadc, hbcl⟩
  simp [geoPredInit, hhv, hdv, hav, hp, hfgv, hocm, hobar, hodar, hoblr, hoadc,
    hocl]

/-- A configuration with tasks `{Cm, Cl}` whose `Bar`, `Dar`, `Blr`, `Adc`
vocabulary fields are absent. -/
def demoCfgCmCl : ModelConfig :=
  ⟨some 128, some 0, some 0, some [Task.Cm, Task.Cl], some 10, some 32, none,
    none, none, none, some 5⟩

/-- Witness for the amended C4: construction succeeds on `demoCfgCmCl` with
exactly the `Cm` and `Cl` heads built among the six conditional ones. -/
theorem c4_amended_witness :
    demoCfgCmCl.pretrain_tasks = some [Task.Cm, Task.Cl]
    ∧ ∃ st, geoPredInit demoCfgCmCl = some st
      ∧ st.pretrain_tasks = [Task.Cm, Task.Cl]
      ∧ st.Cm_vocab.isSome = decide (Task.Cm ∈ [Task.Cm, Task.Cl])
      ∧ st.Bar_vocab.isSome = decide (Task.Bar ∈ [Task.Cm, Task.Cl])
      ∧ st.Dar_vocab.isSome = decide (Task.Dar ∈ [Task.Cm, Task.Cl])
      ∧ st.Blr_vocab.isSome = decide (Task.Blr ∈ [Task.Cm, Task.Cl])
      ∧ st.Adc_vocab.isSome = decide (Task.Adc ∈ [Task.Cm, Task.Cl])
      ∧ st.Cl_vocab.isSome = decide (Task.Cl ∈ [Task.Cm, Task.Cl]) := by
  refine ⟨rfl, ?_⟩
  exact c4_amended_conditional_heads demoCfgCmCl [Task.Cm, Task.Cl] rfl rfl rfl
    rfl rfl (fun _ => rfl) (by decide) (by decide) (by decide) (by decide)
    (fun _ => rfl)

/-! Angle discretization in the `Bar` and `Dar` losses -/

/-- The elementwise semantics of `paddle.cast(x, 'int64')` on a float value:
truncation toward zero. -/
noncomputable def castInt64 (x : ℝ) : ℤ :=
  if 0 ≤ x then ⌊x⌋ else -⌊-x⌋

/-- The elementwise semantics of `Bar_dist_id = paddle.cast(Ba_bond_angle /
np.pi * self.Bar_vocab, 'int64')` (line 259). -/
noncomputable def Bar_dist_id (Bar_vocab : ℕ) (angle : ℝ) : ℤ :=
  castInt64 (angle / Real.pi * Bar_vocab)

/-- The elementwise semantics of `Dar_dist_id = paddle.cast((Da_bond_angle /
np.pi) * self.Dar_vocab, 'int64')` (lines 275 and 288): the same formula as
the `Bar` discretization. -/
noncomputable def Dar_dist_id (Dar_vocab : ℕ) (angle : ℝ) : ℤ :=
  castInt64 (angle / Real.pi * Dar_vocab)

/-- C6.  In the `Bar` (and `Dar`) loss, the classification bin id for a
(nonnegative) angle `a` with vocabulary size `V` is `⌊a/π * V⌋`, obtained by
computing `a/π * V` and casting to integer; in particular `a = 0` maps to
bin 0 and `a = π` maps to bin `V` itself, unclamped. -/
theorem c6_angle_bin_floor (V : ℕ) (a : ℝ) (ha : 0 ≤ a) :
    Bar_dist_id V a = ⌊a / Real.pi * V⌋
    ∧ Dar_dist_id V a = Bar_dist_id V a
    ∧ Bar_dist_id V 0 = 0
    ∧ Bar_dist_id V Real.pi = V := by
  refine ⟨?_, rfl, ?_, ?_⟩
  · have hx : 0 ≤ a / Real.pi * V :=
      mul_nonneg (div_nonneg ha Real.pi_pos.le) (Nat.cast_nonneg V)
    rw [Bar_dist_id, castInt64, if_pos hx]
  · rw [Bar_dist_id, castInt64]
    norm_num
  · have hpi : Real.pi / Real.pi = 1 := div_self Real.pi_ne_zero
    rw [Bar_dist_id, castInt64, hpi]
    rw [one_mul]
    rw [if_pos (Nat.cast_nonneg V)]
    exact Int.floor_natCast V

/-- Witness for C6 at `V = 3`, `a = π`: the boundary bin id is `3 = V`. -/
theorem c6_witness :
    (0 : ℝ) ≤ Real.pi
    ∧ (Bar_dist_id 3 Real.pi = ⌊Real.pi / Real.pi * (3 : ℕ)⌋
        ∧ Dar_dist_id 3 Real.pi = Bar_dist_id 3 Real.pi
        ∧ Bar_dist_id 3 0 = 0
        ∧ Bar_dist_id 3 Real.pi = (3 : ℕ)) := by
  exact ⟨Real.pi_pos.le, c6_angle_bin_floor 3 Real.pi Real.pi_pos.le⟩

/-! The encoder `GeoGNNModel` and its residual block `GeoGNNBlock` -/

/-- A graph as consumed by the encoder: a `node_feat` and an `edge_feat`
feature table (type `F`). -/
structure PGraph (F : Type) where
  node_feat : F
  edge_feat : F

/-- The state of a `GeoGNNBlock` (lines 140-156): the GIN convolution, the
layer norm, the graph norm, the optional activation (present when
`last_act`), and dropout.  All five are framework components, kept
abstract. -/
structure GeoGNNBlock (F T : Type) where
  gnn : PGraph F → T → T → T × T
  norm : T → T
  graph_norm : PGraph F → T → T
  last_act : Bool
  act : T → T
  dropout : T → T

/-- `GeoGNNBlock.forward` (lines 158-172): convolution, two normalizations on
the node path and one on the edge path, optional activation, dropout, and the
residual additions `node_out + node_hidden`, `edge_out + edge_hidden`. -/
def GeoGNNBlock.forward {F T : Type} [Add T] (b : GeoGNNBlock F T)
    (graph : PGraph F) (node_hidden edge_hidden : T) : T × T :=
  let conv := b.gnn graph node_hidden edge_hidden
  let node_out := b.norm conv.1
  let edge_out := b.norm conv.2
  let node_out := b.graph_norm graph node_out
  let node_out := if b.last_act then b.act node_out else node_out
  let edge_out := if b.last_act then b.act edge_out else edge_out
  let node_out := b.dropout node_out
  let edge_out := b.dropout edge_out
  (node_out + node_hidden, edge_out + edge_hidden)

/-- The state of a constructed `GeoGNNModel` (lines 45-95): configured
dimensions, the four initial embeddings, the per-layer re-embedding modules
and the three per-layer blocks, and the readout pool. -/
structure GeoGNNModel (F T : Type) where
  embed_dim : ℕ
  layer_num : ℕ
  init_atom_embedding : F → T
  init_bond_embedding : F → T
  init_bond_float_rbf : F → T
  init_super_edge_embedding : F → T
  bond_embedding_list : ℕ → F → T
  bond_float_rbf_list : ℕ → F → T
  bond_angle_float_rbf_list : ℕ → F → T
  dihes_angle_float_rbf_list : ℕ → F → T
  atom_bond_block_list : ℕ → GeoGNNBlock F T
  bond_angle_block_list : ℕ → GeoGNNBlock F T
  dihes_angle_list : ℕ → GeoGNNBlock F T
  graph_pool : PGraph F → T → T

/-- `node_dim` (lines 97-100). -/
def GeoGNNModel.node_dim {F T : Type} (m : GeoGNNModel F T) : ℕ := m.embed_dim

/-- `graph_dim` (lines 102-105). -/
def GeoGNNModel.graph_dim {F T : Type} (m : GeoGNNModel F T) : ℕ := m.embed_dim

/-- The `(node_hidden_list[l], edge_hidden_list[l], super_edge_hidden_list[l])`
triple maintained by the loop of `GeoGNNModel.forward` (lines 111-133): entry
`0` holds the initial embeddings (lines 111-114); entry `l+1` is the result
of layer `l` (lines 118-133). -/
def GeoGNNModel.stateAt {F T : Type} [Add T] (m : GeoGNNModel F T)
    (atom_bond_graph bond_angle_graph dihes_angle_graph : PGraph F) :
    ℕ → T × T × T
  | 0 =>
    (m.init_atom_embedding atom_bond_graph.node_feat,
      m.init_bond_embedding atom_bond_graph.edge_feat
        + m.init_bond_float_rbf atom_bond_graph.edge_feat,
      m.init_super_edge_embedding bond_angle_graph.edge_feat)
  | l + 1 =>
    let prev := m.stateAt atom_bond_graph bond_angle_graph dihes_angle_graph l
    let cur_edge_hidden := m.bond_embedding_list l atom_bond_graph.edge_feat
      + m.bond_float_rbf_list l atom_bond_graph.edge_feat
    let cur_angle_hidden := m.bond_angle_float_rbf_list l bond_angle_graph.edge_feat
    let cur_dihes_angle_hidden :=
      m.dihes_angle_float_rbf_list l dihes_angle_graph.edge_feat
    let atom_bond := (m.atom_bond_block_list l).forward atom_bond_graph
      prev.1 prev.2.1
    let bond_angle := (m.bond_angle_block_list l).forward bond_angle_graph
      (cur_edge_hidden + atom_bond.2) prev.2.2
    let dihes := (m.dihes_angle_list l).forward dihes_angle_graph
      (cur_angle_hidden + bond_angle.2) cur_dihes_angle_hidden
    (atom_bond.1, bond_angle.1, dihes.1)

/-- `GeoGNNModel.forward` (lines 107-137): run `layer_num` layers, return the
last node and edge states and the pooled graph representation. -/
def GeoGNNModel.forward {F T : Type} [Add T] (m : GeoGNNModel F T)
    (atom_bond_graph bond_angle_graph dihes_angle_graph : PGraph F) :
    T × T × T :=
  let s := m.stateAt atom_bond_graph bond_angle_graph dihes_angle_graph
    m.layer_num
  (s.1, s.2.1, m.graph_pool atom_bond_graph s.1)

/-- C7.  For a `GeoGNNModel` configured with `layer_num = 0`, `forward`
returns `node_repr` equal to the initial atom embedding of the atom-bond
graph's node features and `edge_repr` equal to the initial bond embedding
plus the initial bond-float RBF embedding of its edge features — the
identity on the pre-message-passing embeddings. -/
theorem c7_layer_zero_identity {F T : Type} [Add T] (m : GeoGNNModel F T)
    (hl : m.layer_num = 0)
    (atom_bond_graph bond_angle_graph dihes_angle_graph : PGraph F) :
    (m.forward atom_bond_graph bond_angle_graph dihes_angle_graph).1 =
      m.init_atom_embedding atom_bond_graph.node_feat
    ∧ (m.forward atom_bond_graph bond_angle_graph dihes_angle_graph).2.1 =
      m.init_bond_embedding atom_bond_graph.edge_feat
        + m.init_bond_float_rbf atom_bond_graph.edge_feat := by
  rw [GeoGNNModel.forward, hl]
  exact ⟨rfl, rfl⟩

/-- A trivial concrete block over `F = ℕ`, `T = ℝ`. -/
def demoBlock : GeoGNNBlock ℕ ℝ :=
  ⟨fun _ n e => (n, e), id, fun _ x => x, true, id, id⟩

/-- A concrete encoder with `layer_num = 0` over `F = ℕ`, `T = ℝ`. -/
def demoGeo0 : GeoGNNModel ℕ ℝ where
  embed_dim := 1
  layer_num := 0
  init_atom_embedding := fun f => (f : ℝ)
  init_bond_embedding := fun f => (f : ℝ) + 1
  init_bond_float_rbf := fun f => (f : ℝ) + 2
  init_super_edge_embedding := fun f => (f : ℝ)
  bond_embedding_list := fun _ f => (f : ℝ)
  bond_float_rbf_list := fun _ f => (f : ℝ)
  bond_angle_float_rbf_list := fun _ f => (f : ℝ)
  dihes_angle_float_rbf_list := fun _ f => (f : ℝ)
  atom_bond_block_list := fun _ => demoBlock
  bond_angle_block_list := fun _ => demoBlock
  dihes_angle_list := fun _ => demoBlock
  graph_pool := fun _ x => x

/-- Witness for C7 at a concrete zero-layer encoder and concrete graphs. -/
theorem c7_witness :
    demoGeo0.layer_num = 0
    ∧ (demoGeo0.forward ⟨5, 7⟩ ⟨1, 2⟩ ⟨3, 4⟩).1 =
        demoGeo0.init_atom_embedding 5
    ∧ (demoGeo0.forward ⟨5, 7⟩ ⟨1, 2⟩ ⟨3, 4⟩).2.1 =
        demoGeo0.init_bond_embedding 7 + demoGeo0.init_bond_float_rbf 7 := by
  refine ⟨rfl, ?_⟩
  exact c7_layer_zero_identity demoGeo0 rfl ⟨5, 7⟩ ⟨1, 2⟩ ⟨3, 4⟩

/-! Width preservation (C8)

To talk about the width (last dimension) of representations we instantiate
the tensor type with `List (List ℝ)`: a list of rows.  Elementwise tensor
addition (the residual adds) is `zipWith` of `zipWith`. -/

/-- Elementwise addition of two row-lists, as performed by the framework's
`+` on same-shaped tensors. -/
instance : Add (List (List ℝ)) :=
  ⟨fun a b => List.zipWith (fun r s => List.zipWith (fun x y => x + y) r s) a b⟩

theorem tensorAdd_def (a b : List (List ℝ)) :
    a + b = List.zipWith (fun r s => List.zipWith (fun x y => x + y) r s) a b :=
  rfl

/-- `width d X` means every row of `X` has length `d`. -/
def width (d : ℕ) (X : List (List ℝ)) : Prop :=
  ∀ r ∈ X, r.length = d

theorem width_add (d : ℕ) :
    ∀ a b : List (List ℝ), width d a → width d b → width d (a + b) := by
  intro a
  induction a with
  | nil =>
    intro b _ _ r hr
    rw [tensorAdd_def] at hr
    simp at hr
  | cons x xs ih =>
    intro b ha hb
    cases b with
    | nil =>
      intro r hr
      rw [tensorAdd_def] at hr
      simp at hr
    | cons y ys =>
      intro r hr
      rw [tensorAdd_def, List.zipWith_cons_cons] at hr
      rcases List.mem_cons.mp hr with h | h
      · subst h
        rw [List.length_zipWith]
        rw [ha x (List.mem_cons_self x xs), hb y (List.mem_cons_self y ys)]
        exact Nat.min_self d
      · exact ih ys (fun r hr => ha r (List.mem_cons_of_mem _ hr))
          (fun r hr => hb r (List.mem_cons_of_mem _ hr)) r h

/-- All components of a block preserve width `d` (the GIN convolution, norm,
graph norm, activation and dropout are framework layers mapping
`embed_dim`-wide inputs to `embed_dim`-wide outputs). -/
def blockWidthOK {F : Type} (d : ℕ) (b : GeoGNNBlock F (List (List ℝ))) :
    Prop :=
  (∀ g n e, width d n → width d e →
    width d (b.gnn g n e).1 ∧ width d (b.gnn g n e).2)
  ∧ (∀ x, width d x → width d (b.norm x))
  ∧ (∀ g x, width d x → width d (b.graph_norm g x))
  ∧ (∀ x, width d x → width d (b.act x))
  ∧ (∀ x, width d x → width d (b.dropout x))

/-- A `GeoGNNBlock` with width-preserving components maps `embed_dim`-wide
node and edge states to `embed_dim`-wide outputs: the residual adds inside
the block require and preserve the common width. -/
theorem block_forward_width {F : Type} (d : ℕ)
    (b : GeoGNNBlock F (List (List ℝ))) (hb : blockWidthOK d b)
    (g : PGraph F) (n e : List (List ℝ)) (hn : width d n) (he : width d e) :
    width d ((b.forward g n e).1) ∧ width d ((b.forward g n e).2) := by
  obtain ⟨hgnn, hnorm, hgn, hact, hdrop⟩ := hb
  obtain ⟨hc1, hc2⟩ := hgnn g n e hn he
  have hn1 : width d (b.norm (b.gnn g n e).1) := hnorm _ hc1
  have he1 : width d (b.norm (b.gnn g n e).2) := hnorm _ hc2
  have hn2 : width d (b.graph_norm g (b.norm (b.gnn g n e).1)) := hgn g _ hn1
  have hn3 : width d (if b.last_act
      then b.act (b.graph_norm g (b.norm (b.gnn g n e).1))
      else b.graph_norm g (b.norm (b.gnn g n e).1)) := by
    cases hla : b.last_act
    · rw [if_neg (by simp)]
      exact hn2
    · rw [if_pos rfl]
      exact hact _ hn2
  have he3 : width d (if b.last_act then b.act (b.norm (b.gnn g n e).2)
      else b.norm (b.gnn g n e).2) := by
    cases hla : b.last_act
    · rw [if_neg (by simp)]
      exact he1
    · rw [if_pos rfl]
      exact hact _ he1
  constructor
  · exact width_add d _ n (hdrop _ hn3) hn
  · exact width_add d _ e (hdrop _ he3) he

/-- All components of an encoder over row-list tensors produce / preserve
representations of width `embed_dim`. -/
def modelWidthOK {F : Type} (m : GeoGNNModel F (List (List ℝ))) : Prop :=
  (∀ f, width m.embed_dim (m.init_atom_embedding f))
  ∧ (∀ f, width m.embed_dim (m.init_bond_embedding f))
  ∧ (∀ f, width m.embed_dim (m.init_bond_float_rbf f))
  ∧ (∀ f, width m.embed_dim (m.init_super_edge_embedding f))
  ∧ (∀ l f, width m.embed_dim (m.bond_embedding_list l f))
  ∧ (∀ l f, width m.embed_dim (m.bond_float_rbf_list l f))
  ∧ (∀ l f, width m.embed_dim (m.bond_angle_float_rbf_list l f))
  ∧ (∀ l f, width m.embed_dim (m.dihes_angle_float_rbf_list l f))
  ∧ (∀ l, blockWidthOK m.embed_dim (m.atom_bond_block_list l))
  ∧ (∀ l, blockWidthOK m.embed_dim (m.bond_angle_block_list l))
  ∧ (∀ l, blockWidthOK m.embed_dim (m.dihes_angle_list l))
  ∧ (∀ g x, width m.embed_dim x → width m.embed_dim (m.graph_pool g x))

/-- Every entry of the per-layer state triple has width `embed_dim`. -/
theorem stateAt_width {F : Type} (m : GeoGNNModel F (List (List ℝ)))
    (hm : modelWidthOK m) (abg bag dag : PGraph F) :
    ∀ l, width m.embed_dim ((m.stateAt abg bag dag l).1)
      ∧ width m.embed_dim ((m.stateAt abg bag dag l).2.1)
      ∧ width m.embed_dim ((m.stateAt abg bag dag l).2.2) := by
  obtain ⟨hia, hib, hif, his, hbe, hbf, hba, hdr, hab, hban, hdan, -⟩ := hm
  intro l
  induction l with
  | zero =>
    exact ⟨hia _, width_add _ _ _ (hib _) (hif _), his _⟩
  | succ l ih =>
    obtain ⟨ihn, ihe, ihs⟩ := ih
    have habw := block_forward_width m.embed_dim (m.atom_bond_block_list l)
      (hab l) abg _ _ ihn ihe
    have hcur : width m.embed_dim
        (m.bond_embedding_list l abg.edge_feat
          + m.bond_float_rbf_list l abg.edge_feat) :=
      width_add _ _ _ (hbe l abg.edge_feat) (hbf l abg.edge_feat)
    have hbanw := block_forward_width m.embed_dim (m.bond_angle_block_list l)
      (hban l) bag _ _ (width_add _ _ _ hcur habw.2) ihs
    have hdanw := block_forward_width m.embed_dim (m.dihes_angle_list l)
      (hdan l) dag _ (m.dihes_angle_float_rbf_list l dag.edge_feat)
      (width_add _ _ _ (hba l bag.edge_feat) hbanw.2) (hdr l dag.edge_feat)
    exact ⟨habw.1, hbanw.1, hdanw.1⟩

/-- C8.  For every configuration and every value of `layer_num`, the node,
edge and graph representations returned by `GeoGNNModel.forward` have width
equal to the configured `embed_dim`, because each `GeoGNNBlock` (with its
width-preserving framework components) maps inputs of width `embed_dim` to
outputs of width `embed_dim` — the residual add back to the block's input
requires and preserves this. -/
theorem c8_embed_dim_invariant {F : Type} (m : GeoGNNModel F (List (List ℝ)))
    (hm : modelWidthOK m) (abg bag dag : PGraph F) :
    width m.embed_dim ((m.forward abg bag dag).1)
    ∧ width m.embed_dim ((m.forward abg bag dag).2.1)
    ∧ width m.embed_dim ((m.forward abg bag dag).2.2)
    ∧ ∀ (b : GeoGNNBlock F (List (List ℝ))), blockWidthOK m.embed_dim b →
        ∀ g n e, width m.embed_dim n → width m.embed_dim e →
          width m.embed_dim ((b.forward g n e).1)
          ∧ width m.embed_dim ((b.forward g n e).2) := by
  obtain ⟨hn, he, -⟩ := stateAt_width m hm abg bag dag m.layer_num
  have hpool := hm.2.2.2.2.2.2.2.2.2.2.2
  exact ⟨hn, he, hpool abg _ hn,
    fun b hb g n e hwn hwe => block_forward_width m.embed_dim b hb g n e hwn hwe⟩

/-- A trivial width-preserving block over row-list tensors. -/
def demoBlockW : GeoGNNBlock ℕ (List (List ℝ)) :=
  ⟨fun _ n e => (n, e), id, fun _ x => x, true, id, id⟩

/-- A concrete two-layer encoder over row-list tensors, all embeddings
producing a single row of width 1. -/
def demoGeoW : GeoGNNModel ℕ (List (List ℝ)) where
  embed_dim := 1
  layer_num := 2
  init_atom_embedding := fun _ => [[0]]
  init_bond_embedding := fun _ => [[0]]
  init_bond_float_rbf := fun _ => [[0]]
  init_super_edge_embedding := fun _ => [[0]]
  bond_embedding_list := fun _ _ => [[0]]
  bond_float_rbf_list := fun _ _ => [[0]]
  bond_angle_float_rbf_list := fun _ _ => [[0]]
  dihes_angle_float_rbf_list := fun _ _ => [[0]]
  atom_bond_block_list := fun _ => demoBlockW
  bond_angle_block_list := fun _ => demoBlockW
  dihes_angle_list := fun _ => demoBlockW
  graph_pool := fun _ x => x

theorem demoGeoW_widthOK : modelWidthOK demoGeoW := by
  have hone : width 1 [[(0 : ℝ)]] := by
    intro r hr
    rcases List.mem_singleton.mp hr with h
    rw [h]
    rfl
  have hidp : ∀ x, width 1 x → width 1 (id x) := fun x hx => hx
  refine ⟨fun _ => hone, fun _ => hone, fun _ => hone, fun _ => hone,
    fun _ _ => hone, fun _ _ => hone, fun _ _ => hone, fun _ _ => hone,
    fun _ => ⟨fun _ n e hn he => ⟨hn, he⟩, hidp, fun _ x hx => hx, hidp, hidp⟩,
    fun _ => ⟨fun _ n e hn he => ⟨hn, he⟩, hidp, fun _ x hx => hx, hidp, hidp⟩,
    fun _ => ⟨fun _ n e hn he => ⟨hn, he⟩, hidp, fun _ x hx => hx, hidp, hidp⟩,
    fun _ x hx => hx⟩

/-- Witness for C8 at a concrete two-layer encoder. -/
theorem c8_witness :
    modelWidthOK demoGeoW
    ∧ width demoGeoW.embed_dim ((demoGeoW.forward ⟨5, 7⟩ ⟨1, 2⟩ ⟨3, 4⟩).1)
    ∧ width demoGeoW.embed_dim ((demoGeoW.forward ⟨5, 7⟩ ⟨1, 2⟩ ⟨3, 4⟩).2.1)
    ∧ width demoGeoW.embed_dim ((demoGeoW.forward ⟨5, 7⟩ ⟨1, 2⟩ ⟨3, 4⟩).2.2) := by
  have h := c8_embed_dim_invariant demoGeoW demoGeoW_widthOK ⟨5, 7⟩ ⟨1, 2⟩ ⟨3, 4⟩
  exact ⟨demoGeoW_widthOK, h.1, h.2.1, h.2.2.1⟩

end GemModel
